import Mathlib

/-!
# Verification of `max_to_tg.py` (MaxToTelegram bridge)

Shallow embedding of the forwarding bridge in `src/max_to_tg.py`:
the media fetcher `download_media_from_url`, the destination-registry
commands `start_forwarding` / `stop_forwarding` with `save_state`, and the
message handler `handle_max_message` (status filter, sender lookup,
attachment resolution, fan-out send loop with self-healing removal).

External effects (HTTP attempts, SDK lookups, Telegram sends, file writes)
are modelled as an explicit environment; the handler returns the trace of
effectful calls it makes, so the theorems can talk about which network
calls happen, in which order, and how the in-memory set and the persisted
file evolve.
-/

namespace MaxToTg

/-! ## Media fetcher (`download_media_from_url`, lines 84–114)

One call of the fetcher performs up to `max_retries` HTTP attempts.  The
environment supplies, for each attempt index, what that attempt would do:
succeed with bytes, raise `asyncio.TimeoutError`, raise
`aiohttp.ClientError`, or raise some other exception.  The `Nat` payloads
of the failure constructors stand for the identity of the raised exception
object, so distinct attempts carry distinguishable errors. -/

/-- What a single HTTP GET attempt does, as chosen by the environment.
The three failure constructors correspond to the three `except` clauses of
`download_media_from_url`. -/
inductive AttemptOutcome
  | success (content : List Nat)
  | timeout (info : Nat)
  | clientError (info : Nat)
  | otherError (info : Nat)
deriving DecidableEq, Repr

/-- A Python exception value as surfaced by the fetcher.  The constructor
`typeErrorRaiseNone` models the `TypeError` produced by `raise None` when
`last_exception` is still `None`. -/
inductive PyExc
  | timeoutErr (info : Nat)
  | clientErr (info : Nat)
  | otherErr (info : Nat)
  | typeErrorRaiseNone
deriving DecidableEq, Repr

instance : DecidableEq (Except PyExc (List Nat)) := fun
  | .ok a, .ok b => decidable_of_iff (a = b) (by simp)
  | .ok _, .error _ => isFalse (by simp)
  | .error _, .ok _ => isFalse (by simp)
  | .error a, .error b => decidable_of_iff (a = b) (by simp)

/-- Trace of one fetcher call: its result (bytes or raised exception), how
many HTTP attempts were actually made, and the list of back-off sleep
durations (in seconds) in order. -/
structure FetchTrace where
  result : Except PyExc (List Nat)
  attemptsMade : Nat
  sleeps : List Nat
deriving DecidableEq, Repr

/-- The exception corresponding to a failing attempt outcome (junk value on
`success`, which callers never use there). -/
def outcomeExc : AttemptOutcome → PyExc
  | .success _ => .typeErrorRaiseNone
  | .timeout i => .timeoutErr i
  | .clientError i => .clientErr i
  | .otherError i => .otherErr i

/-- Is the outcome one of the two retried failure classes
(`asyncio.TimeoutError` / `aiohttp.ClientError`)? -/
def retryableOutcome : AttemptOutcome → Bool
  | .timeout _ => true
  | .clientError _ => true
  | _ => false

/-- Does the outcome hit the generic `except Exception` clause (which
`break`s out of the retry loop)? -/
def isOtherError : AttemptOutcome → Bool
  | .otherError _ => true
  | _ => false

/-- Is the outcome a success? -/
def isSuccess : AttemptOutcome → Bool
  | .success _ => true
  | _ => false

/-- The body of the `for attempt in range(max_retries)` loop of
`download_media_from_url`, over the list of remaining attempt outcomes.
`attempt` is the current 0-based attempt index (used for the `2 ** attempt`
back-off), `last` is the running `last_exception`.  A retryable failure
sleeps and continues only when another iteration remains
(`attempt < max_retries - 1`, i.e. the rest of the list is nonempty); any
other exception `break`s; an exhausted loop raises `last_exception`. -/
def fetchAux : List AttemptOutcome → Nat → Option PyExc → FetchTrace
  | [], _, last => ⟨.error (last.getD .typeErrorRaiseNone), 0, []⟩
  | o :: rest, attempt, _ =>
    match o with
    | .success c => ⟨.ok c, 1, []⟩
    | .timeout i =>
      match rest with
      | [] => ⟨.error (.timeoutErr i), 1, []⟩
      | r :: rs =>
        let t := fetchAux (r :: rs) (attempt + 1) (some (.timeoutErr i))
        ⟨t.result, t.attemptsMade + 1, 2 ^ attempt :: t.sleeps⟩
    | .clientError i =>
      match rest with
      | [] => ⟨.error (.clientErr i), 1, []⟩
      | r :: rs =>
        let t := fetchAux (r :: rs) (attempt + 1) (some (.clientErr i))
        ⟨t.result, t.attemptsMade + 1, 2 ^ attempt :: t.sleeps⟩
    | .otherError i => ⟨.error (.otherErr i), 1, []⟩

/-- `download_media_from_url(url, filename, max_retries)`: runs the retry
loop over the first `max_retries` attempt outcomes supplied by the
environment.  `max_retries` is a Python `int`; `range` of a non-positive
value is empty, which `Int.toNat` reproduces. -/
def download_media_from_url (outcomes : Nat → AttemptOutcome)
    (maxRetries : Int := 3) : FetchTrace :=
  fetchAux ((List.range maxRetries.toNat).map outcomes) 0 none

/-! ## Data model for the handler

Messages, attachments and the environment of external collaborators
(`max_client`, `telegram_bot`, the state file).  Python truthiness
(`if x:`) on optional strings / ints is made explicit by `truthyStr` /
`truthyNat`: `None`, `""` and `0` are falsy. -/

/-- `pymax` message status flags; only `REMOVED` matters to the bridge. -/
inductive MsgStatus
  | removed
  | edited
  | other
deriving DecidableEq, Repr

/-- The first attachment's shape, mirroring the `isinstance` dispatch over
`PhotoAttach` / `VideoAttach` / `AudioAttach` / `FileAttach` /
`StickerAttach` / everything else.  Optional fields model attributes that
may be missing or `None` (`getattr(att, ..., None)`); for `video` the
`id`/`video_id` fallback chain is collapsed into one optional id, likewise
`file_id`/`id` for `file`. -/
inductive Attach
  | photo (base_url : Option String)
  | video (id : Option Nat)
  | audio (url : Option String)
  | file (file_id : Option Nat) (name : Option String)
  | sticker
  | control
  | unknownAttach
deriving DecidableEq, Repr

/-- An inbound Max message, with the fields `handle_max_message` reads. -/
structure Msg where
  id : Nat
  chat_id : Nat
  sender : Option Nat
  status : Option (List MsgStatus)
  text : Option String
  attaches : Option (List Attach)
deriving DecidableEq, Repr

/-- Python truthiness for an optional string: `None` and `""` are falsy. -/
def truthyStr : Option String → Option String
  | some s => if s = "" then none else some s
  | none => none

/-- Python truthiness for an optional int: `None` and `0` are falsy. -/
def truthyNat : Option Nat → Option Nat
  | some n => if n = 0 then none else some n
  | none => none

/-- The `media_type` values assigned by the handler, plus `text` for plain
`send_message` calls. -/
inductive MediaKind
  | photo
  | video
  | audio
  | document
  | text
deriving DecidableEq, Repr

/-- A resolved media item: `media_type`, `media_url` and `filename` as set
by the attachment-processing block when all three are truthy. -/
structure MediaSpec where
  kind : MediaKind
  url : String
  filename : String
deriving DecidableEq, Repr

/-- Result of `max_client.get_file_by_id`: the `unsafe` flag and the `url`
attribute (outer `none` = attribute missing, inner value = its content,
possibly empty). -/
structure FileInfo where
  notSafe : Bool
  url : Option (Option String)
deriving DecidableEq, Repr

/-- Outcome of one effectful call against the outside world: it returns
normally or raises an exception whose `str()` description is `msg`. -/
inductive StepOutcome
  | ok
  | raise (msg : String)
deriving DecidableEq, Repr

/-- The trace of externally visible calls the bridge makes, in order. -/
inductive Event
  | userLookup (senderId : Nat)
  | videoLookup (chatId messageId videoId : Nat)
  | fileLookup (chatId messageId fileId : Nat)
  | download (url filename dest : String)
  | send (kind : MediaKind) (dest : String) (payload : String)
  | saveState (chats : List String)
  | logWarning
  | logError
deriving DecidableEq, Repr

/-- Environment of external collaborators.

* `getUser sid`: `.error ()` = the lookup raised; `.ok none` = user falsy
  or `names` empty; `.ok (some (first_name, name))` = the first name
  object's two optional name fields.
* `getVideoById chat msg vid`: `.error ()` = raised; `.ok none` =
  `video_info` falsy or it has no `url` attribute; `.ok (some u)` = the
  `url` attribute's value (possibly `None`/empty).
* `getFileById chat msg fid`: `.error ()` = raised; `.ok none` =
  `file_info` falsy; `.ok (some fi)` = the info object.
* `download d` / `send d`: what the download / Telegram send does in the
  loop iteration for destination `d`.
* `saveOk`: whether a `save_state` file write succeeds. -/
structure Env where
  getUser : Nat → Except Unit (Option (Option String × Option String))
  getVideoById : Nat → Nat → Nat → Except Unit (Option (Option String))
  getFileById : Nat → Nat → Nat → Except Unit (Option FileInfo)
  download : String → StepOutcome
  send : String → StepOutcome
  saveOk : Bool

/-! ## State persistence and registry commands (lines 60–77, 134–152) -/

/-- `save_state()`: rewrites the persisted file with the current in-memory
set; a failing write (`saveOk = false`) is logged and leaves the file as it
was, without touching the in-memory set. -/
def save_state (saveOk : Bool) (chats file : List String) : List String :=
  if saveOk then chats else file

/-- Reply of `start_forwarding` when the chat was added. -/
def startActivatedReply (maxChatId : Nat) : String :=
  "🚀 Пересылка из Max (ID: " ++ toString maxChatId ++ ") включена."

/-- Reply of `start_forwarding` when the chat was already active. -/
def alreadyActiveReply : String := "✅ Уже работает."

/-- Reply of `stop_forwarding` when the chat was removed. -/
def stoppedReply : String := "🛑 Пересылка остановлена."

/-- Reply of `stop_forwarding` when the chat was not active. -/
def notActiveReply : String := "❌ Не была включена."

/-- Result of one registry command: new in-memory set, new file content,
whether `save_state` was called, and the reply text. -/
structure CmdResult where
  chats : List String
  file : List String
  saved : Bool
  reply : String
deriving DecidableEq, Repr

/-- `/start` handler `start_forwarding`: adds the invoking chat id to
`ACTIVE_CHATS` and flushes the state when absent; otherwise a no-op with
the "already active" reply. -/
def start_forwarding (maxChatId : Nat) (chatId : String)
    (chats file : List String) (saveOk : Bool) : CmdResult :=
  if chatId ∉ chats then
    let chats' := chatId :: chats
    ⟨chats', save_state saveOk chats' file, true, startActivatedReply maxChatId⟩
  else
    ⟨chats, file, false, alreadyActiveReply⟩

/-- `/stop` handler `stop_forwarding`: removes the invoking chat id and
flushes the state when present; otherwise a no-op with the "was not
active" reply. -/
def stop_forwarding (chatId : String) (chats file : List String)
    (saveOk : Bool) : CmdResult :=
  if chatId ∈ chats then
    let chats' := chats.erase chatId
    ⟨chats', save_state saveOk chats' file, true, stoppedReply⟩
  else
    ⟨chats, file, false, notActiveReply⟩

/-! ## Message handler (`handle_max_message`, lines 171–408) -/

/-- `MessageStatus.REMOVED in message_status` guarded by the truthiness of
`message_status` (a missing or empty status is falsy). -/
def statusRemoved (m : Msg) : Bool :=
  match m.status with
  | none => false
  | some l => l.contains .removed

/-- The `a or b or "Неизвестный"` fallback chain over the name object's
optional fields. -/
def pyOr2 (a b : Option String) (fb : String) : String :=
  match truthyStr a with
  | some s => s
  | none =>
    match truthyStr b with
    | some s => s
    | none => fb

/-- Sender-name resolution (lines 240–253): skipped for a falsy sender id;
a raising lookup logs an error, a falsy user or empty `names` logs a
warning, both falling back to `ID_{sender_id}`. -/
def resolveSender (env : Env) (senderId : Option Nat) : String × List Event :=
  match truthyNat senderId with
  | none => ("Неизвестный", [])
  | some sid =>
    match env.getUser sid with
    | .error _ => ("ID_" ++ toString sid, [.userLookup sid, .logError])
    | .ok none => ("ID_" ++ toString sid, [.userLookup sid, .logWarning])
    | .ok (some (first, nm)) => (pyOr2 first nm "Неизвестный", [.userLookup sid])

/-- `tg_caption` (lines 259–261). -/
def mkCaption (senderName text : String) : String :=
  "📩 *MAX*\n*От:* " ++ senderName ++ (if text = "" then "" else "\n" ++ text)

/-- Attachment classification and URL resolution for the *first* attachment
(lines 267–340).  Produces the `(media_type, media_url, filename)` triple
when all are truthy, together with the lookup calls and warning/error logs
made on the way; any raising lookup is caught by the surrounding
`try/except` and logged as an error, leaving `media_url` unset. -/
def resolveMedia (env : Env) (m : Msg) : Option MediaSpec × List Event :=
  match m.attaches.getD [] with
  | [] => (none, [])
  | a :: _ =>
    match a with
    | .photo base_url =>
      match truthyStr base_url with
      | some u => (some ⟨.photo, u, "photo_" ++ toString m.id ++ ".jpg"⟩, [])
      | none => (none, [.logWarning])
    | .video vid =>
      match truthyNat vid with
      | none => (none, [.logWarning])
      | some v =>
        match env.getVideoById m.chat_id m.id v with
        | .error _ => (none, [.videoLookup m.chat_id m.id v, .logError])
        | .ok none => (none, [.videoLookup m.chat_id m.id v, .logWarning])
        | .ok (some u) =>
          match truthyStr u with
          | some s =>
            (some ⟨.video, s, "video_" ++ toString m.id ++ ".mp4"⟩,
              [.videoLookup m.chat_id m.id v])
          | none => (none, [.videoLookup m.chat_id m.id v])
    | .audio url =>
      match truthyStr url with
      | some u => (some ⟨.audio, u, "audio_" ++ toString m.id ++ ".ogg"⟩, [])
      | none => (none, [.logWarning])
    | .file fid nm =>
      match truthyNat fid with
      | none => (none, [.logWarning])
      | some f =>
        match env.getFileById m.chat_id m.id f with
        | .error _ => (none, [.fileLookup m.chat_id m.id f, .logError])
        | .ok none => (none, [.fileLookup m.chat_id m.id f, .logWarning])
        | .ok (some fi) =>
          if fi.notSafe then (none, [.fileLookup m.chat_id m.id f, .logWarning])
          else
            match fi.url with
            | none => (none, [.fileLookup m.chat_id m.id f, .logWarning])
            | some u =>
              match truthyStr u with
              | some s =>
                (some ⟨.document, s, nm.getD ("file_" ++ toString m.id ++ ".bin")⟩,
                  [.fileLookup m.chat_id m.id f])
              | none => (none, [.fileLookup m.chat_id m.id f])
    | .sticker => (none, [])
    | .control => (none, [])
    | .unknownAttach => (none, [])

/-- The destination-not-found test of line 405:
`"not found" in str(e).lower() or "chat not found" in str(e).lower()`. -/
def containsNotFound (s : String) : Bool :=
  decide ("not found".toList <:+: s.toList.map Char.toLower)
    || decide ("chat not found".toList <:+: s.toList.map Char.toLower)

/-- The `except` block of the fan-out loop (lines 403–408): on a
destination-not-found error the destination is discarded from
`ACTIVE_CHATS` and `save_state()` is called; any other error is only
logged. -/
def handleSendExc (saveOk : Bool) (d msg : String) (chats file : List String) :
    List String × List String × List Event :=
  if containsNotFound msg then
    let chats' := chats.erase d
    (chats', save_state saveOk chats' file, [.saveState chats'])
  else
    (chats, file, [])

/-- One iteration of the fan-out loop (lines 347–408) for destination `d`:
with resolved media, download then send media-with-caption; otherwise send
the caption as text when the message has text, else do nothing; any raise
in the body is caught by `handleSendExc`. -/
def fanIter (env : Env) (caption text : String) (media : Option MediaSpec)
    (d : String) (chats file : List String) :
    List String × List String × List Event :=
  match media with
  | some spec =>
    match env.download d with
    | .raise msg =>
      let r := handleSendExc env.saveOk d msg chats file
      (r.1, r.2.1, .download spec.url spec.filename d :: r.2.2)
    | .ok =>
      match env.send d with
      | .raise msg =>
        let r := handleSendExc env.saveOk d msg chats file
        (r.1, r.2.1,
          .download spec.url spec.filename d :: .send spec.kind d caption :: r.2.2)
      | .ok =>
        (chats, file, [.download spec.url spec.filename d, .send spec.kind d caption])
  | none =>
    if text = "" then (chats, file, [])
    else
      match env.send d with
      | .raise msg =>
        let r := handleSendExc env.saveOk d msg chats file
        (r.1, r.2.1, .send .text d caption :: r.2.2)
      | .ok => (chats, file, [.send .text d caption])

/-- The fan-out loop `for tg_chat_id in ACTIVE_CHATS.copy()`: iterates the
snapshot in order, threading the live set and the file. -/
def fanOut (env : Env) (caption text : String) (media : Option MediaSpec) :
    List String → List String → List String →
    List String × List String × List Event
  | [], chats, file => (chats, file, [])
  | d :: rest, chats, file =>
    let r1 := fanIter env caption text media d chats file
    let r2 := fanOut env caption text media rest r1.1 r1.2.1
    (r2.1, r2.2.1, r1.2.2 ++ r2.2.2)

/-- `handle_max_message`: the whole per-message pipeline — removed-status
filter, source-chat filter, empty-message filter, sender lookup, first
attachment resolution, then fan-out over a snapshot of `ACTIVE_CHATS`
(returning early when the set is empty).  Returns the new in-memory set,
the new persisted-file content, and the trace of external calls. -/
def handle_max_message (maxChatId : Nat) (env : Env) (m : Msg)
    (chats file : List String) : List String × List String × List Event :=
  if statusRemoved m then (chats, file, [])
  else if m.chat_id ≠ maxChatId then (chats, file, [])
  else
    let attachesL := m.attaches.getD []
    let text := m.text.getD ""
    if text = "" ∧ attachesL = [] then (chats, file, [])
    else
      let s := resolveSender env m.sender
      let caption := mkCaption s.1 text
      let rm := resolveMedia env m
      if chats = [] then (chats, file, s.2 ++ rm.2)
      else
        let r := fanOut env caption text rm.1 chats chats file
        (r.1, r.2.1, s.2 ++ rm.2 ++ r.2.2)

/-! ## Trace observations -/

/-- Number of fetcher invocations (media downloads) in a trace. -/
def countDownloads (evs : List Event) : Nat :=
  (evs.filter fun e => match e with | .download _ _ _ => true | _ => false).length

/-- Number of fetcher invocations made for destination `d`. -/
def countDownloadsTo (evs : List Event) (d : String) : Nat :=
  (evs.filter fun e => match e with | .download _ _ x => x == d | _ => false).length

/-- Number of send calls (of any kind) attempted towards destination `d`. -/
def countSendsTo (evs : List Event) (d : String) : Nat :=
  (evs.filter fun e => match e with | .send _ x _ => x == d | _ => false).length

/-- Is there a plain-text `send_message` attempt towards destination `d`? -/
def hasTextSendTo (evs : List Event) (d : String) : Bool :=
  evs.any fun e => match e with | .send .text x _ => x == d | _ => false

/-- Is there any send attempt towards destination `d`? -/
def hasSendTo (evs : List Event) (d : String) : Bool :=
  evs.any fun e => match e with | .send _ x _ => x == d | _ => false

/-- Destination `d` actually received a message: a send was attempted for
it and its send call succeeded. -/
def deliveredTo (env : Env) (evs : List Event) (d : String) : Prop :=
  hasSendTo evs d = true ∧ env.send d = StepOutcome.ok

/-- The exception description raised inside destination `d`'s loop
iteration, if its body raises. -/
def iterExcMsg (env : Env) (media : Option MediaSpec) (text : String)
    (d : String) : Option String :=
  match media with
  | some _ =>
    match env.download d with
    | .raise msg => some msg
    | .ok =>
      match env.send d with
      | .raise msg => some msg
      | .ok => none
  | none =>
    if text = "" then none
    else
      match env.send d with
      | .raise msg => some msg
      | .ok => none

/-- Does destination `d`'s iteration raise a destination-not-found error
(and hence get discarded)? -/
def iterNotFound (env : Env) (media : Option MediaSpec) (text : String)
    (d : String) : Bool :=
  match iterExcMsg env media text d with
  | some msg => containsNotFound msg
  | none => false

/-! ## Concrete instances used to evaluate the model -/

/-- A benign environment: every external call succeeds, the video and file
lookups return nothing, the user lookup raises. -/
def okEnv : Env where
  getUser := fun _ => Except.error ()
  getVideoById := fun _ _ _ => Except.ok none
  getFileById := fun _ _ _ => Except.ok none
  download := fun _ => .ok
  send := fun _ => .ok
  saveOk := true

/-- A message carrying one photo attachment with a direct URL. -/
def photoMsg : Msg :=
  { id := 5, chat_id := 1, sender := none, status := none,
    text := some "hello", attaches := some [.photo (some "http://m/x")] }

/-- A message carrying one video attachment whose URL lookup will be made
with video id 4. -/
def vidMsg : Msg :=
  { id := 7, chat_id := 1, sender := none, status := none,
    text := some "hi", attaches := some [.video (some 4)] }

/-- `vidMsg` with no text. -/
def vidMsgNoText : Msg :=
  { id := 7, chat_id := 1, sender := none, status := none,
    text := none, attaches := some [.video (some 4)] }

/-- A message already marked as removed. -/
def removedMsg : Msg :=
  { id := 9, chat_id := 1, sender := some 3, status := some [.removed],
    text := some "bye", attaches := some [.photo (some "http://m/y")] }

/-- An environment whose Telegram sends all fail with a
destination-not-found error. -/
def nfEnv : Env where
  getUser := fun _ => Except.error ()
  getVideoById := fun _ _ _ => Except.ok none
  getFileById := fun _ _ _ => Except.ok none
  download := fun _ => .ok
  send := fun _ => .raise "Chat not found"
  saveOk := true

/-- An environment where only destination `"2"`'s send fails, with a
destination-not-found error. -/
def nf2Env : Env :=
  { okEnv with send := fun d => if d = "2" then .raise "Bad Request: chat not found" else .ok }

/-- An environment where only destination `"1"`'s download raises. -/
def dlFailEnv : Env :=
  { okEnv with download := fun d => if d = "1" then .raise "boom" else .ok }

/-- The events produced by one fan-out iteration for destination `d`
(specification combinator used to state `fanIter_eq`). -/
def fanIterEvents (env : Env) (cap tv : String) (media : Option MediaSpec)
    (d : String) (chats : List String) : List Event :=
  (match media with
   | some spec =>
     match env.download d with
     | .raise _ => [.download spec.url spec.filename d]
     | .ok => [.download spec.url spec.filename d, .send spec.kind d cap]
   | none =>
     if tv = "" then []
     else [.send .text d cap])
  ++ (if iterNotFound env media tv d then [.saveState (chats.erase d)] else [])

end MaxToTg

namespace MaxToTg

/-! # Theorems -/

theorem download_eq_fetchAux3 (o : Nat → AttemptOutcome) :
    download_media_from_url o 3 = fetchAux [o 0, o 1, o 2] 0 none := rfl

/-- Claim C2: with the default `max_retries = 3`, an attempt failing with a
timeout or an `aiohttp` transport error is retried with a `2 ^ attempt`
sleep between consecutive attempts, at most 3 attempts are ever made, and
an attempt failing with any other exception class ends the loop at once,
with no further attempt and no sleep. -/
theorem download_retry_policy (o : Nat → AttemptOutcome) :
    (download_media_from_url o 3).attemptsMade ≤ 3
    ∧ (retryableOutcome (o 0) = true →
        2 ≤ (download_media_from_url o 3).attemptsMade
        ∧ (download_media_from_url o 3).sleeps.getD 0 0 = 2 ^ 0)
    ∧ (retryableOutcome (o 0) = true → retryableOutcome (o 1) = true →
        (download_media_from_url o 3).attemptsMade = 3
        ∧ (download_media_from_url o 3).sleeps = [2 ^ 0, 2 ^ 1])
    ∧ (isOtherError (o 0) = true →
        (download_media_from_url o 3).attemptsMade = 1
        ∧ (download_media_from_url o 3).sleeps = [])
    ∧ (retryableOutcome (o 0) = true → isOtherError (o 1) = true →
        (download_media_from_url o 3).attemptsMade = 2
        ∧ (download_media_from_url o 3).sleeps = [2 ^ 0]) := by
  have e : download_media_from_url o 3 = fetchAux [o 0, o 1, o 2] 0 none := rfl
  cases h0 : o 0 <;> cases h1 : o 1 <;> cases h2 : o 2 <;>
    simp [e, h0, h1, h2, fetchAux, retryableOutcome, isOtherError]

/-- Witness for C2 at concrete attempt streams: three timeouts take 3
attempts with sleeps `[1, 2]`; an immediate unexpected error stops after 1
attempt with no sleep. -/
theorem download_retry_policy_witness :
    (download_media_from_url (fun j => .timeout j) 3).attemptsMade = 3
    ∧ (download_media_from_url (fun j => .timeout j) 3).sleeps = [2 ^ 0, 2 ^ 1]
    ∧ (download_media_from_url (fun j => .otherError j) 3).attemptsMade = 1
    ∧ (download_media_from_url (fun j => .otherError j) 3).sleeps = [] := by
  have h := download_retry_policy (fun j => .timeout j)
  have h' := download_retry_policy (fun j => .otherError j)
  exact ⟨(h.2.2.1 rfl rfl).1, (h.2.2.1 rfl rfl).2,
    (h'.2.2.2.1 rfl).1, (h'.2.2.2.1 rfl).2⟩

/-- Claim C3, counterexample: in a run whose three attempts fail with three
distinct timeout errors, the error surfaced after exhaustion is the third
attempt's timeout, not the original (first attempt's) one — the code ends
with `raise last_exception`. -/
theorem download_surfaces_last_not_original :
    (download_media_from_url (fun j => .timeout (j + 1)) 3).result
      = Except.error (PyExc.timeoutErr 3)
    ∧ (download_media_from_url (fun j => .timeout (j + 1)) 3).result
      ≠ Except.error (PyExc.timeoutErr 1) := by decide

/-- Claim C3 as amended: when every attempt fails, the fetcher raises the
**last** attempt's underlying exception itself (there is no wrapper error
class) and never returns a byte buffer; in an all-timeout run all 3
attempts are made and the last timeout is the one surfaced, which
coincides with the original only when the attempts raise the same
error. -/
theorem download_exhaustion_surfaces_last (o : Nat → AttemptOutcome)
    (hfail : ∀ j, j < 3 → isSuccess (o j) = false) :
    (∀ c, (download_media_from_url o 3).result ≠ Except.ok c)
    ∧ 1 ≤ (download_media_from_url o 3).attemptsMade
    ∧ (download_media_from_url o 3).result
      = Except.error (outcomeExc (o ((download_media_from_url o 3).attemptsMade - 1)))
    ∧ ((∀ j, j < 3 → retryableOutcome (o j) = true) →
        (download_media_from_url o 3).attemptsMade = 3
        ∧ (download_media_from_url o 3).result = Except.error (outcomeExc (o 2))) := by
  have e : download_media_from_url o 3 = fetchAux [o 0, o 1, o 2] 0 none := rfl
  have f0 := hfail 0 (by omega)
  have f1 := hfail 1 (by omega)
  have f2 := hfail 2 (by omega)
  cases h0 : o 0 <;> cases h1 : o 1 <;> cases h2 : o 2 <;>
    simp_all [e, fetchAux, isSuccess, retryableOutcome, outcomeExc] <;>
    first
    | (refine ⟨0, by omega, ?_⟩; rw [h0]; done)
    | (refine ⟨1, by omega, ?_⟩; rw [h1]; done)
    | (refine ⟨2, by omega, ?_⟩; rw [h2]; done)

/-- Witness for C3's amended theorem on an all-timeout run with pairwise
distinct timeout errors. -/
theorem download_exhaustion_surfaces_last_witness :
    (∀ c, (download_media_from_url (fun j => .timeout (j + 1)) 3).result ≠ Except.ok c)
    ∧ (download_media_from_url (fun j => .timeout (j + 1)) 3).attemptsMade = 3
    ∧ (download_media_from_url (fun j => .timeout (j + 1)) 3).result
      = Except.error (outcomeExc (AttemptOutcome.timeout 3)) := by
  have h := download_exhaustion_surfaces_last (fun j => .timeout (j + 1))
    (fun j _ => rfl)
  exact ⟨h.1, (h.2.2.2 (fun j _ => rfl)).1, (h.2.2.2 (fun j _ => rfl)).2⟩

/-- Claim C10: called with a non-positive `max_retries`, the fetcher's
`range` loop runs zero times, so zero attempts and zero network calls are
made and `raise last_exception` raises `None`, i.e. a `TypeError`, not any
fetch or network error. -/
theorem download_nonpositive_retries (o : Nat → AttemptOutcome) (n : Int)
    (hn : n ≤ 0) :
    download_media_from_url o n
      = ⟨Except.error PyExc.typeErrorRaiseNone, 0, []⟩ := by
  have h : n.toNat = 0 := Int.toNat_of_nonpos hn
  simp [download_media_from_url, h, fetchAux]

/-- Witness for C10 at `max_retries = -2`, with attempts that would all
succeed were any made. -/
theorem download_nonpositive_retries_witness :
    (-2 : Int) ≤ 0
    ∧ download_media_from_url (fun _ => .success [7]) (-2)
      = ⟨Except.error PyExc.typeErrorRaiseNone, 0, []⟩ :=
  ⟨by decide, download_nonpositive_retries (fun _ => .success [7]) (-2) (by decide)⟩

/-! ## Registry commands -/

theorem already_ne_activated (n : Nat) :
    alreadyActiveReply ≠ startActivatedReply n := by
  intro h
  have h' := congrArg String.length h
  have e1 : alreadyActiveReply.length = 15 := by decide
  have e2 : ("🚀 Пересылка из Max (ID: ").length = 24 := by decide
  have e3 : (") включена.").length = 11 := by decide
  rw [e1, startActivatedReply] at h'
  simp only [String.length_append, e2, e3] at h'
  omega

/-- Claim C5: every mutation of the destination set — add via `/start`,
remove via `/stop`, and the not-found removal in the fan-out loop — is
immediately followed by a `save_state` rewriting the persisted file with
exactly the current in-memory set; a failed write leaves the file as it
was but does not roll back the in-memory mutation. -/
theorem mutations_flush_state (maxChatId : Nat) (chatId : String)
    (chats file : List String) (saveOk : Bool)
    (env : Env) (cap tv msg : String) (spec : MediaSpec) (d : String) :
    (chatId ∉ chats →
      (start_forwarding maxChatId chatId chats file saveOk).chats = chatId :: chats
      ∧ (start_forwarding maxChatId chatId chats file saveOk).saved = true
      ∧ (start_forwarding maxChatId chatId chats file saveOk).file
        = save_state saveOk (chatId :: chats) file
      ∧ (saveOk = false →
          (start_forwarding maxChatId chatId chats file saveOk).file = file
          ∧ (start_forwarding maxChatId chatId chats file saveOk).chats
            = chatId :: chats))
    ∧ (chatId ∈ chats →
      (stop_forwarding chatId chats file saveOk).chats = chats.erase chatId
      ∧ (stop_forwarding chatId chats file saveOk).saved = true
      ∧ (stop_forwarding chatId chats file saveOk).file
        = save_state saveOk (chats.erase chatId) file
      ∧ (saveOk = false →
          (stop_forwarding chatId chats file saveOk).file = file
          ∧ (stop_forwarding chatId chats file saveOk).chats = chats.erase chatId))
    ∧ (env.download d = .ok → env.send d = .raise msg →
        containsNotFound msg = true →
      (fanIter env cap tv (some spec) d chats file).1 = chats.erase d
      ∧ (fanIter env cap tv (some spec) d chats file).2.1
        = save_state env.saveOk (chats.erase d) file
      ∧ Event.saveState (chats.erase d)
          ∈ (fanIter env cap tv (some spec) d chats file).2.2
      ∧ (env.saveOk = false →
          (fanIter env cap tv (some spec) d chats file).2.1 = file
          ∧ (fanIter env cap tv (some spec) d chats file).1 = chats.erase d)) := by
  refine ⟨fun h => ?_, fun h => ?_, fun hdl hsend hnf => ?_⟩
  · simp [start_forwarding, h, save_state]
    intro hs
    simp [hs]
  · simp [stop_forwarding, h, save_state]
    intro hs
    simp [hs]
  · simp [fanIter, hdl, hsend, handleSendExc, hnf, save_state]
    intro hs
    simp [hs]

/-- Witness for C5 at concrete inputs: adding `"2"` to `{"1"}`, removing
`"1"` from `{"1"}`, and a not-found send failure for destination `"1"`,
each flushing the state file. -/
theorem mutations_flush_state_witness :
    (start_forwarding 1 "2" ["1"] ["1"] true).chats = ["2", "1"]
    ∧ (start_forwarding 1 "2" ["1"] ["1"] true).file = ["2", "1"]
    ∧ (stop_forwarding "1" ["1"] ["1"] true).chats = []
    ∧ Event.saveState []
        ∈ (fanIter nfEnv "c" "t" (some ⟨.photo, "u", "f"⟩) "1" ["1"] ["1"]).2.2 := by
  have h := mutations_flush_state 1 "2" ["1"] ["1"] true nfEnv "c" "t"
    "Chat not found" ⟨.photo, "u", "f"⟩ "1"
  have h2 := mutations_flush_state 1 "1" ["1"] ["1"] true nfEnv "c" "t"
    "Chat not found" ⟨.photo, "u", "f"⟩ "1"
  refine ⟨(h.1 (by decide)).1, ?_, ?_, ?_⟩
  · have := (h.1 (by decide)).2.2.1
    simpa [save_state] using this
  · have := (h2.2.1 (by decide)).1
    simpa using this
  · have := (h2.2.2 rfl rfl (by decide)).2.2.1
    simpa using this

/-- Claim C6: `/start` on an already-active chat and `/stop` on an
inactive chat are no-ops that do not touch the persisted file and reply
with their distinct status strings; `/start` on an absent id adds it and
`/stop` on a present id removes it, each flushing the state, so running
either command twice is the same as running it once. -/
theorem commands_idempotent (maxChatId : Nat) (chatId : String)
    (chats file : List String) (saveOk : Bool) (hnodup : chats.Nodup) :
    (chatId ∈ chats →
      start_forwarding maxChatId chatId chats file saveOk
        = ⟨chats, file, false, alreadyActiveReply⟩)
    ∧ (chatId ∉ chats →
      start_forwarding maxChatId chatId chats file saveOk
        = ⟨chatId :: chats, save_state saveOk (chatId :: chats) file, true,
            startActivatedReply maxChatId⟩)
    ∧ (chatId ∉ chats →
      stop_forwarding chatId chats file saveOk
        = ⟨chats, file, false, notActiveReply⟩)
    ∧ (chatId ∈ chats →
      stop_forwarding chatId chats file saveOk
        = ⟨chats.erase chatId, save_state saveOk (chats.erase chatId) file, true,
            stoppedReply⟩)
    ∧ alreadyActiveReply ≠ startActivatedReply maxChatId
    ∧ notActiveReply ≠ stoppedReply
    ∧ (start_forwarding maxChatId chatId
        (start_forwarding maxChatId chatId chats file saveOk).chats
        (start_forwarding maxChatId chatId chats file saveOk).file saveOk
      = ⟨(start_forwarding maxChatId chatId chats file saveOk).chats,
          (start_forwarding maxChatId chatId chats file saveOk).file, false,
          alreadyActiveReply⟩)
    ∧ (stop_forwarding chatId
        (stop_forwarding chatId chats file saveOk).chats
        (stop_forwarding chatId chats file saveOk).file saveOk
      = ⟨(stop_forwarding chatId chats file saveOk).chats,
          (stop_forwarding chatId chats file saveOk).file, false,
          notActiveReply⟩) := by
  refine ⟨fun h => by simp [start_forwarding, h],
    fun h => by simp [start_forwarding, h],
    fun h => by simp [stop_forwarding, h],
    fun h => by simp [stop_forwarding, h],
    already_ne_activated maxChatId,
    by decide, ?_, ?_⟩
  · by_cases h : chatId ∈ chats
    · simp [start_forwarding, h]
    · simp [start_forwarding, h]
  · by_cases h : chatId ∈ chats
    · have hne : chatId ∉ chats.erase chatId := fun hmem =>
        ((hnodup.mem_erase_iff).mp hmem).1 rfl
      simp [stop_forwarding, h, hne]
    · simp [stop_forwarding, h]

/-- Witness for C6: second `/start` for `"1"` on `{"1"}` is a no-op with
the "already active" reply; `/stop` for `"2"` on `{"1"}` is a no-op with
the "was not active" reply. -/
theorem commands_idempotent_witness :
    start_forwarding 7 "1" ["1"] [] true = ⟨["1"], [], false, alreadyActiveReply⟩
    ∧ stop_forwarding "2" ["1"] [] true = ⟨["1"], [], false, notActiveReply⟩
    ∧ alreadyActiveReply ≠ startActivatedReply 7 := by
  have h := commands_idempotent 7 "1" ["1"] [] true (by decide)
  have h2 := commands_idempotent 7 "2" ["1"] [] true (by decide)
  exact ⟨h.1 (by decide), h2.2.2.1 (by decide), h.2.2.2.2.1⟩

/-! ## Fan-out loop lemmas -/

theorem handleSendExc_eq (saveOk : Bool) (d msg : String) (chats file : List String) :
    handleSendExc saveOk d msg chats file
      = if containsNotFound msg
        then (chats.erase d, save_state saveOk (chats.erase d) file,
              [.saveState (chats.erase d)])
        else (chats, file, []) := rfl

/-- One fan-out iteration, split into its set/file effect (controlled by
`iterNotFound`) and its event trace `fanIterEvents`. -/
theorem fanIter_eq (env : Env) (cap tv : String) (media : Option MediaSpec)
    (d : String) (chats file : List String) :
    fanIter env cap tv media d chats file
      = ((if iterNotFound env media tv d then chats.erase d else chats),
         (if iterNotFound env media tv d
          then save_state env.saveOk (chats.erase d) file else file),
         fanIterEvents env cap tv media d chats) := by
  cases media with
  | none =>
    by_cases ht : tv = "" <;>
      cases hs : env.send d <;>
        simp [fanIter, iterNotFound, iterExcMsg, fanIterEvents, handleSendExc_eq,
          ht, hs] <;>
        split_ifs <;> simp
  | some spec =>
    cases hd : env.download d <;> cases hs : env.send d <;>
      simp [fanIter, iterNotFound, iterExcMsg, fanIterEvents, handleSendExc_eq,
        hd, hs] <;>
      split_ifs <;> simp

theorem fanOut_cons (env : Env) (cap tv : String) (media : Option MediaSpec)
    (d : String) (rest chats file : List String) :
    fanOut env cap tv media (d :: rest) chats file
      = ((fanOut env cap tv media rest
            (if iterNotFound env media tv d then chats.erase d else chats)
            (if iterNotFound env media tv d
             then save_state env.saveOk (chats.erase d) file else file)).1,
         (fanOut env cap tv media rest
            (if iterNotFound env media tv d then chats.erase d else chats)
            (if iterNotFound env media tv d
             then save_state env.saveOk (chats.erase d) file else file)).2.1,
         fanIterEvents env cap tv media d chats
           ++ (fanOut env cap tv media rest
                (if iterNotFound env media tv d then chats.erase d else chats)
                (if iterNotFound env media tv d
                 then save_state env.saveOk (chats.erase d) file else file)).2.2) := by
  simp [fanOut, fanIter_eq]

theorem countDownloads_append (a b : List Event) :
    countDownloads (a ++ b) = countDownloads a + countDownloads b := by
  simp [countDownloads, List.filter_append]

theorem countDownloadsTo_append (a b : List Event) (d : String) :
    countDownloadsTo (a ++ b) d = countDownloadsTo a d + countDownloadsTo b d := by
  simp [countDownloadsTo, List.filter_append]

theorem countSendsTo_append (a b : List Event) (d : String) :
    countSendsTo (a ++ b) d = countSendsTo a d + countSendsTo b d := by
  simp [countSendsTo, List.filter_append]

theorem hasTextSendTo_append (a b : List Event) (d : String) :
    hasTextSendTo (a ++ b) d = (hasTextSendTo a d || hasTextSendTo b d) := by
  simp [hasTextSendTo, List.any_append]

theorem hasSendTo_append (a b : List Event) (d : String) :
    hasSendTo (a ++ b) d = (hasSendTo a d || hasSendTo b d) := by
  simp [hasSendTo, List.any_append]

theorem fanIterEvents_countDownloads_some (env : Env) (cap tv : String)
    (spec : MediaSpec) (d : String) (chats : List String) :
    countDownloads (fanIterEvents env cap tv (some spec) d chats) = 1 := by
  cases hd : env.download d <;>
    simp [fanIterEvents, hd, countDownloads_append, countDownloads] <;>
    split_ifs <;> simp [countDownloads]

theorem fanIterEvents_countDownloadsTo_some (env : Env) (cap tv : String)
    (spec : MediaSpec) (d x : String) (chats : List String) :
    countDownloadsTo (fanIterEvents env cap tv (some spec) d chats) x
      = if d = x then 1 else 0 := by
  cases hd : env.download d <;>
    simp [fanIterEvents, hd, countDownloadsTo_append, countDownloadsTo] <;>
    split_ifs <;> simp_all [countDownloadsTo, beq_iff_eq]

theorem fanIterEvents_countDownloads_none (env : Env) (cap tv : String)
    (d : String) (chats : List String) :
    countDownloads (fanIterEvents env cap tv none d chats) = 0 := by
  simp [fanIterEvents, countDownloads_append, countDownloads] <;>
    split_ifs <;> simp [countDownloads]

theorem fanIterEvents_no_textSend (env : Env) (cap tv : String)
    (spec : MediaSpec) (hk : spec.kind ≠ .text) (d x : String)
    (chats : List String) :
    hasTextSendTo (fanIterEvents env cap tv (some spec) d chats) x = false := by
  obtain ⟨k, u, f⟩ := spec
  cases hd : env.download d <;> cases k <;>
    simp_all [fanIterEvents, hasTextSendTo_append, hasTextSendTo] <;>
    split_ifs <;> simp [hasTextSendTo]

theorem fanIterEvents_no_send_other (env : Env) (cap tv : String)
    (media : Option MediaSpec) (d x : String) (h : d ≠ x)
    (chats : List String) :
    hasSendTo (fanIterEvents env cap tv media d chats) x = false := by
  cases media <;> cases hd : env.download d <;>
    simp_all [fanIterEvents, hasSendTo_append, hasSendTo] <;>
    split_ifs <;> simp [hasSendTo, h]

theorem fanIterEvents_no_send_dlRaise (env : Env) (cap tv : String)
    (spec : MediaSpec) (d x : String) (msg : String)
    (hd : env.download d = .raise msg) (chats : List String) :
    hasSendTo (fanIterEvents env cap tv (some spec) d chats) x = false := by
  simp [fanIterEvents, hd, hasSendTo_append, hasSendTo] <;>
    split_ifs <;> simp [hasSendTo]

theorem fanIterEvents_send_mem (env : Env) (cap tv : String)
    (spec : MediaSpec) (d : String) (hd : env.download d = .ok)
    (chats : List String) :
    Event.send spec.kind d cap ∈ fanIterEvents env cap tv (some spec) d chats := by
  simp [fanIterEvents, hd]

theorem fanIterEvents_saveState_mem (env : Env) (cap tv : String)
    (media : Option MediaSpec) (d : String)
    (hnf : iterNotFound env media tv d = true) (chats : List String) :
    Event.saveState (chats.erase d) ∈ fanIterEvents env cap tv media d chats := by
  simp [fanIterEvents, hnf]

theorem iterNotFound_of_ok_send (env : Env) (media : Option MediaSpec)
    (tv : String) (x : String) (hdl : env.download x = .ok)
    (hs : env.send x = .ok) :
    iterNotFound env media tv x = false := by
  cases media <;> simp [iterNotFound, iterExcMsg, hdl, hs] <;> split_ifs <;> simp

/-- Membership in the live set after the fan-out: a destination survives
iff it was there before and its own iteration did not raise a
destination-not-found error. -/
theorem fanOut_chats_mem (env : Env) (cap tv : String)
    (media : Option MediaSpec) (snap : List String) :
    ∀ chats file : List String, chats.Nodup → ∀ x,
      (x ∈ (fanOut env cap tv media snap chats file).1
        ↔ x ∈ chats ∧ ¬(x ∈ snap ∧ iterNotFound env media tv x = true)) := by
  induction snap with
  | nil => intro chats file _ x; simp [fanOut]
  | cons d rest ih =>
    intro chats file hnodup x
    rw [fanOut_cons]
    by_cases hnf : iterNotFound env media tv d
    · have h1 := ih (chats.erase d)
        (save_state env.saveOk (chats.erase d) file) (hnodup.erase d) x
      simp only [hnf, if_true]
      rw [h1, List.Nodup.mem_erase_iff hnodup]
      by_cases hx : x = d
      · subst hx; simp [hnf]
      · simp only [List.mem_cons, hx, false_or]
        tauto
    · have hnf' : iterNotFound env media tv d = false := by
        simpa using hnf
      have h1 := ih chats file hnodup x
      simp only [hnf']
      rw [if_neg (by simp), if_neg (by simp), h1]
      by_cases hx : x = d
      · subst hx; simp [hnf']
      · simp only [List.mem_cons, hx, false_or]

theorem fanOut_chats_nodup (env : Env) (cap tv : String)
    (media : Option MediaSpec) (snap : List String) :
    ∀ chats file : List String, chats.Nodup →
      (fanOut env cap tv media snap chats file).1.Nodup := by
  induction snap with
  | nil => intro chats file h; simpa [fanOut] using h
  | cons d rest ih =>
    intro chats file hnodup
    rw [fanOut_cons]
    by_cases hnf : iterNotFound env media tv d
    · simpa only [hnf, if_true] using
        ih (chats.erase d) (save_state env.saveOk (chats.erase d) file)
          (hnodup.erase d)
    · simpa only [hnf, if_false] using ih chats file hnodup

/-- With resolved media, every iteration makes exactly one fetcher call. -/
theorem fanOut_countDownloads_some (env : Env) (cap tv : String)
    (spec : MediaSpec) (snap : List String) :
    ∀ chats file : List String,
      countDownloads (fanOut env cap tv (some spec) snap chats file).2.2
        = snap.length := by
  induction snap with
  | nil => intro chats file; simp [fanOut, countDownloads]
  | cons d rest ih =>
    intro chats file
    rw [fanOut_cons]
    simp only []
    rw [countDownloads_append, fanIterEvents_countDownloads_some, ih]
    simp [Nat.add_comm]

theorem fanOut_countDownloadsTo_some (env : Env) (cap tv : String)
    (spec : MediaSpec) (snap : List String) :
    ∀ chats file : List String, ∀ x,
      countDownloadsTo (fanOut env cap tv (some spec) snap chats file).2.2 x
        = snap.count x := by
  induction snap with
  | nil => intro chats file x; simp [fanOut, countDownloadsTo]
  | cons d rest ih =>
    intro chats file x
    rw [fanOut_cons]
    simp only []
    rw [countDownloadsTo_append, fanIterEvents_countDownloadsTo_some]
    rw [List.count_cons]
    have := ih (if iterNotFound env (some spec) tv d then chats.erase d else chats)
      (if iterNotFound env (some spec) tv d
       then save_state env.saveOk (chats.erase d) file else file) x
    rw [this]
    by_cases hx : d = x
    · subst hx; simp; omega
    · have hx' : ¬(x = d) := fun h => hx h.symm
      simp [hx, hx']

theorem fanOut_no_textSend (env : Env) (cap tv : String) (spec : MediaSpec)
    (hk : spec.kind ≠ .text) (snap : List String) :
    ∀ chats file : List String, ∀ x,
      hasTextSendTo (fanOut env cap tv (some spec) snap chats file).2.2 x
        = false := by
  induction snap with
  | nil => intro chats file x; simp [fanOut, hasTextSendTo]
  | cons d rest ih =>
    intro chats file x
    rw [fanOut_cons]
    simp only []
    rw [hasTextSendTo_append, fanIterEvents_no_textSend env cap tv spec hk]
    simp [ih]

theorem fanOut_no_send_dlRaise (env : Env) (cap tv : String) (spec : MediaSpec)
    (x msg : String) (hd : env.download x = .raise msg) (snap : List String) :
    ∀ chats file : List String,
      hasSendTo (fanOut env cap tv (some spec) snap chats file).2.2 x
        = false := by
  induction snap with
  | nil => intro chats file; simp [fanOut, hasSendTo]
  | cons d rest ih =>
    intro chats file
    rw [fanOut_cons]
    simp only []
    rw [hasSendTo_append]
    by_cases hdx : d = x
    · subst hdx
      rw [fanIterEvents_no_send_dlRaise env cap tv spec d d msg hd]
      simp [ih]
    · rw [fanIterEvents_no_send_other env cap tv _ d x hdx]
      simp [ih]

theorem fanOut_send_mem (env : Env) (cap tv : String) (spec : MediaSpec)
    (snap : List String) :
    ∀ chats file : List String, ∀ d ∈ snap, env.download d = .ok →
      Event.send spec.kind d cap
        ∈ (fanOut env cap tv (some spec) snap chats file).2.2 := by
  induction snap with
  | nil => intro chats file d hd; simp at hd
  | cons a rest ih =>
    intro chats file d hd hdl
    rw [fanOut_cons]
    simp only [List.mem_append]
    rcases List.mem_cons.mp hd with h | h
    · subst h
      exact Or.inl (fanIterEvents_send_mem env cap tv spec d hdl chats)
    · exact Or.inr (ih _ _ d h hdl)

theorem fanOut_saveState_of_notFound (env : Env) (cap tv : String)
    (media : Option MediaSpec) (snap : List String) :
    ∀ chats file : List String, chats.Nodup → ∀ d ∈ snap,
      iterNotFound env media tv d = true →
      ∃ c, Event.saveState c ∈ (fanOut env cap tv media snap chats file).2.2
        ∧ d ∉ c := by
  induction snap with
  | nil => intro chats file _ d hd; simp at hd
  | cons a rest ih =>
    intro chats file hnodup d hd hnf
    rw [fanOut_cons]
    rcases List.mem_cons.mp hd with h | h
    · subst h
      refine ⟨chats.erase d, ?_, ?_⟩
      · exact List.mem_append_left _ (fanIterEvents_saveState_mem env cap tv media d hnf chats)
      · exact fun hmem => (((List.Nodup.mem_erase_iff hnodup).mp hmem).1) rfl
    · by_cases ha : iterNotFound env media tv a
      · obtain ⟨c, hc, hdc⟩ := ih (chats.erase a)
          (save_state env.saveOk (chats.erase a) file) (hnodup.erase a) d h hnf
        refine ⟨c, ?_, hdc⟩
        simp only [ha, if_true] at hc ⊢
        exact List.mem_append_right _ hc
      · obtain ⟨c, hc, hdc⟩ := ih chats file hnodup d h hnf
        refine ⟨c, ?_, hdc⟩
        simp only [ha, if_false] at hc ⊢
        exact List.mem_append_right _ hc

/-- Text-only fan-out with all sends succeeding: the set and file are
untouched and the trace is exactly one text send per snapshot entry (none
when the message has no text). -/
theorem fanOut_none_all_ok (env : Env) (cap tv : String) (snap : List String) :
    ∀ chats file : List String, (∀ d ∈ snap, env.send d = .ok) →
      fanOut env cap tv none snap chats file
        = (chats, file,
           if tv = "" then []
           else snap.map fun d => Event.send .text d cap) := by
  induction snap with
  | nil => intro chats file _; simp [fanOut]
  | cons d rest ih =>
    intro chats file hok
    rw [fanOut_cons]
    have hnf : iterNotFound env none tv d = false := by
      unfold iterNotFound iterExcMsg
      rw [hok d (List.mem_cons_self d rest)]
      split_ifs <;> rfl
    have hok' : ∀ x ∈ rest, env.send x = .ok :=
      fun x hx => hok x (List.mem_cons_of_mem d hx)
    simp only [hnf]
    rw [if_neg (by simp), if_neg (by simp), ih chats file hok']
    by_cases ht : tv = ""
    · subst ht; simp [fanIterEvents, hnf]
    · simp [fanIterEvents, hnf, ht]

/-! ## Resolver lemmas -/

theorem resolveSender_no_download (env : Env) (sid : Option Nat) :
    countDownloads (resolveSender env sid).2 = 0 := by
  unfold resolveSender
  (repeat' split) <;> simp [countDownloads]

theorem resolveSender_no_send (env : Env) (sid : Option Nat) (x : String) :
    hasSendTo (resolveSender env sid).2 x = false := by
  unfold resolveSender
  (repeat' split) <;> simp [hasSendTo]

theorem resolveMedia_no_download (env : Env) (m : Msg) :
    countDownloads (resolveMedia env m).2 = 0 := by
  unfold resolveMedia
  (repeat' split) <;> simp [countDownloads]

theorem resolveMedia_no_send (env : Env) (m : Msg) (x : String) :
    hasSendTo (resolveMedia env m).2 x = false := by
  unfold resolveMedia
  (repeat' split) <;> simp [hasSendTo]

theorem resolveMedia_fst_none_of_nil (env : Env) (m : Msg)
    (h : m.attaches.getD [] = []) : (resolveMedia env m).1 = none := by
  simp [resolveMedia, h]

theorem resolveMedia_video_noUrl (env : Env) (m : Msg) (vid : Nat)
    (rest : List Attach)
    (hatt : m.attaches = some (.video (some vid) :: rest)) (hvid : vid ≠ 0)
    (hlook : env.getVideoById m.chat_id m.id vid = .ok none) :
    resolveMedia env m
      = (none, [.videoLookup m.chat_id m.id vid, .logWarning]) := by
  simp [resolveMedia, hatt, truthyNat, hvid, hlook]

theorem countDownloads_sendMap (k : MediaKind) (cap : String) (l : List String) :
    countDownloads (l.map fun d => Event.send k d cap) = 0 := by
  induction l with
  | nil => simp [countDownloads]
  | cons a t ih => simpa [countDownloads, List.filter_cons] using ih

/-! ## Claim theorems about the handler -/

/-- Claim C8: a message whose status contains `REMOVED` is discarded up
front — the handler returns before any sender lookup, resolution, download
or send call (its event trace is empty) and leaves the destination set and
the state file unchanged, whatever the text and attachments are. -/
theorem removed_message_discarded (maxChatId : Nat) (env : Env) (m : Msg)
    (chats file : List String) (h : statusRemoved m = true) :
    handle_max_message maxChatId env m chats file = (chats, file, []) := by
  simp [handle_max_message, h]

/-- Witness for C8: a removed message with text and a photo attachment
produces no calls at all. -/
theorem removed_message_discarded_witness :
    statusRemoved removedMsg = true
    ∧ handle_max_message 1 okEnv removedMsg ["1"] ["1"] = (["1"], ["1"], []) :=
  ⟨by decide, removed_message_discarded 1 okEnv removedMsg ["1"] ["1"] (by decide)⟩

/-- Claim C1, counterexample: one inbound photo message with two active
destinations triggers two fetcher invocations — the download happens
inside the per-destination loop — so the media is not downloaded exactly
once per message. -/
theorem media_downloaded_once_per_message_false :
    countDownloads
        (handle_max_message 1 okEnv photoMsg ["111", "222"] ["111", "222"]).2.2
      = 2
    ∧ countDownloads
        (handle_max_message 1 okEnv photoMsg ["111", "222"] ["111", "222"]).2.2
      ≠ 1 := by decide

/-- Claim C1 as amended: for a message whose first attachment resolves to
a media URL, the media is downloaded once **per destination** — each
destination's loop iteration makes its own fetcher call — so the number of
fetcher invocations equals the size of the registry snapshot (the
sequential loop still keeps at most one buffer in flight at a time). -/
theorem media_fetched_once_per_destination (maxChatId : Nat) (env : Env)
    (m : Msg) (chats file : List String) (spec : MediaSpec)
    (hs : statusRemoved m = false) (hc : m.chat_id = maxChatId)
    (hm : (resolveMedia env m).1 = some spec) :
    countDownloads (handle_max_message maxChatId env m chats file).2.2
      = chats.length := by
  have hne : m.attaches.getD [] ≠ [] := by
    intro h
    rw [resolveMedia_fst_none_of_nil env m h] at hm
    cases hm
  by_cases hch : chats = []
  · subst hch
    have hh : handle_max_message maxChatId env m [] file
        = ([], file, (resolveSender env m.sender).2 ++ (resolveMedia env m).2) := by
      simp [handle_max_message, hs, hc, hne]
    rw [hh]
    simp [countDownloads_append, resolveSender_no_download, resolveMedia_no_download]
  · have hh : handle_max_message maxChatId env m chats file
        = ((fanOut env (mkCaption (resolveSender env m.sender).1 (m.text.getD ""))
              (m.text.getD "") (resolveMedia env m).1 chats chats file).1,
           (fanOut env (mkCaption (resolveSender env m.sender).1 (m.text.getD ""))
              (m.text.getD "") (resolveMedia env m).1 chats chats file).2.1,
           (resolveSender env m.sender).2 ++ (resolveMedia env m).2
             ++ (fanOut env (mkCaption (resolveSender env m.sender).1 (m.text.getD ""))
                  (m.text.getD "") (resolveMedia env m).1 chats chats file).2.2) := by
      simp [handle_max_message, hs, hc, hne, hch]
    rw [hh]
    simp only [countDownloads_append, resolveSender_no_download,
      resolveMedia_no_download, hm]
    rw [fanOut_countDownloads_some]
    omega

/-- Witness for C1's amended theorem: one destination, one fetch. -/
theorem media_fetched_once_per_destination_witness :
    countDownloads (handle_max_message 1 okEnv photoMsg ["a"] ["a"]).2.2 = 1 := by
  have h := media_fetched_once_per_destination 1 okEnv photoMsg ["a"] ["a"]
    ⟨.photo, "http://m/x", "photo_5.jpg"⟩ (by decide) (by decide) (by decide)
  simpa using h

/-- Claim C4: a send exception for one destination is caught and does not
stop the fan-out; when its description contains "not found"
(case-insensitively), that destination is removed from the live set and
the state saved, while every other destination remains in the set and
still gets (and, send succeeding, receives) the message. -/
theorem fanout_not_found_self_healing (env : Env) (cap tv : String)
    (spec : MediaSpec) (snapshot chats file : List String) (d msg : String)
    (hnodup : chats.Nodup) (hd : d ∈ snapshot)
    (hdl : ∀ x, env.download x = .ok)
    (hraise : env.send d = .raise msg)
    (hnf : containsNotFound msg = true)
    (hothers : ∀ x, x ≠ d → env.send x = .ok) :
    d ∉ (fanOut env cap tv (some spec) snapshot chats file).1
    ∧ (∃ c, Event.saveState c
          ∈ (fanOut env cap tv (some spec) snapshot chats file).2.2 ∧ d ∉ c)
    ∧ (∀ x ∈ snapshot, x ≠ d →
        Event.send spec.kind x cap
          ∈ (fanOut env cap tv (some spec) snapshot chats file).2.2
        ∧ env.send x = .ok)
    ∧ (∀ x ∈ chats, x ≠ d →
        x ∈ (fanOut env cap tv (some spec) snapshot chats file).1) := by
  have hnfd : iterNotFound env (some spec) tv d = true := by
    simp [iterNotFound, iterExcMsg, hdl d, hraise, hnf]
  refine ⟨?_, ?_, ?_, ?_⟩
  · intro hmem
    have h := (fanOut_chats_mem env cap tv (some spec) snapshot chats file
      hnodup d).mp hmem
    exact h.2 ⟨hd, hnfd⟩
  · exact fanOut_saveState_of_notFound env cap tv (some spec) snapshot chats
      file hnodup d hd hnfd
  · intro x hx hxd
    exact ⟨fanOut_send_mem env cap tv spec snapshot chats file x hx (hdl x),
      hothers x hxd⟩
  · intro x hxc hxd
    refine (fanOut_chats_mem env cap tv (some spec) snapshot chats file
      hnodup x).mpr ⟨hxc, ?_⟩
    rintro ⟨hxs, hnfx⟩
    have hfalse : iterNotFound env (some spec) tv x = false :=
      iterNotFound_of_ok_send env (some spec) tv x (hdl x) (hothers x hxd)
    rw [hfalse] at hnfx
    cases hnfx

/-- Witness for C4: three destinations, the second raising a
"chat not found" error; the first and third receive the message and the
registry keeps exactly them. -/
theorem fanout_not_found_self_healing_witness :
    "2" ∉ (fanOut nf2Env "c" "t" (some ⟨.photo, "u", "f"⟩)
        ["1", "2", "3"] ["1", "2", "3"] ["1", "2", "3"]).1
    ∧ Event.send .photo "1" "c"
        ∈ (fanOut nf2Env "c" "t" (some ⟨.photo, "u", "f"⟩)
            ["1", "2", "3"] ["1", "2", "3"] ["1", "2", "3"]).2.2
    ∧ Event.send .photo "3" "c"
        ∈ (fanOut nf2Env "c" "t" (some ⟨.photo, "u", "f"⟩)
            ["1", "2", "3"] ["1", "2", "3"] ["1", "2", "3"]).2.2
    ∧ "1" ∈ (fanOut nf2Env "c" "t" (some ⟨.photo, "u", "f"⟩)
            ["1", "2", "3"] ["1", "2", "3"] ["1", "2", "3"]).1
    ∧ "3" ∈ (fanOut nf2Env "c" "t" (some ⟨.photo, "u", "f"⟩)
            ["1", "2", "3"] ["1", "2", "3"] ["1", "2", "3"]).1 := by
  have h := fanout_not_found_self_healing nf2Env "c" "t" ⟨.photo, "u", "f"⟩
    ["1", "2", "3"] ["1", "2", "3"] ["1", "2", "3"] "2"
    "Bad Request: chat not found" (by decide) (by decide) (fun x => rfl)
    (by decide) (by decide) (fun x hx => by simp [nf2Env, okEnv, hx])
  exact ⟨h.1, (h.2.2.1 "1" (by decide) (by decide)).1,
    (h.2.2.1 "3" (by decide) (by decide)).1,
    h.2.2.2 "1" (by decide) (by decide),
    h.2.2.2 "3" (by decide) (by decide)⟩

/-- Claim C9: with resolved media and non-empty text, a destination whose
download or send raises receives nothing for this message — in particular
the text is never sent to it as a fallback (the fan-out sends only the
media kind, never a plain text message) — while every destination of the
snapshot still gets its own download attempt. -/
theorem media_failure_no_text_fallback (env : Env) (cap tv : String)
    (spec : MediaSpec) (snapshot chats file : List String) (d : String)
    (hkind : spec.kind ≠ .text) (htv : tv ≠ "")
    (hfail : env.download d ≠ .ok ∨ env.send d ≠ .ok) :
    hasTextSendTo (fanOut env cap tv (some spec) snapshot chats file).2.2 d
      = false
    ∧ ¬ deliveredTo env
        (fanOut env cap tv (some spec) snapshot chats file).2.2 d
    ∧ (∀ msg, env.download d = .raise msg →
        hasSendTo (fanOut env cap tv (some spec) snapshot chats file).2.2 d
          = false)
    ∧ (∀ x, countDownloadsTo
          (fanOut env cap tv (some spec) snapshot chats file).2.2 x
        = snapshot.count x) := by
  refine ⟨fanOut_no_textSend env cap tv spec hkind snapshot chats file d,
    ?_, ?_, ?_⟩
  · rintro ⟨hsend, hok⟩
    rcases hfail with h | h
    · cases hdc : env.download d with
      | ok => exact h hdc
      | raise msg =>
        have hf := fanOut_no_send_dlRaise env cap tv spec d msg hdc snapshot
          chats file
        rw [hf] at hsend
        cases hsend
    · exact h hok
  · intro msg hmsg
    exact fanOut_no_send_dlRaise env cap tv spec d msg hmsg snapshot chats file
  · intro x
    exact fanOut_countDownloadsTo_some env cap tv spec snapshot chats file x

/-- Witness for C9: destination `"1"`'s download raises while `"2"` is
fine; `"1"` gets no send at all, no text fallback, and both destinations
got their own download attempt. -/
theorem media_failure_no_text_fallback_witness :
    hasTextSendTo (fanOut dlFailEnv "c" "t" (some ⟨.photo, "u", "f"⟩)
        ["1", "2"] ["1", "2"] ["1", "2"]).2.2 "1" = false
    ∧ hasSendTo (fanOut dlFailEnv "c" "t" (some ⟨.photo, "u", "f"⟩)
        ["1", "2"] ["1", "2"] ["1", "2"]).2.2 "1" = false
    ∧ countDownloadsTo (fanOut dlFailEnv "c" "t" (some ⟨.photo, "u", "f"⟩)
        ["1", "2"] ["1", "2"] ["1", "2"]).2.2 "2" = 1 := by
  have h := media_failure_no_text_fallback dlFailEnv "c" "t"
    ⟨.photo, "u", "f"⟩ ["1", "2"] ["1", "2"] ["1", "2"] "1"
    (by decide) (by decide) (Or.inl (by decide))
  refine ⟨h.1, h.2.2.1 "boom" (by decide), ?_⟩
  have h4 := h.2.2.2 "2"
  simpa using h4

/-- Claim C7: when the first attachment is a video and the URL lookup
returns no URL, the handler completes normally (it is a total function
here — the lookup failure is absorbed, nothing is re-raised), a warning is
logged, no download happens, the registry and file are untouched, and —
sends succeeding — every active destination receives exactly the
text-only caption when the message has text, and nothing at all when it
does not. -/
theorem video_without_url_degrades (maxChatId : Nat) (env : Env) (m : Msg)
    (chats file : List String) (vid : Nat) (rest : List Attach)
    (hs : statusRemoved m = false) (hc : m.chat_id = maxChatId)
    (hatt : m.attaches = some (.video (some vid) :: rest))
    (hvid : vid ≠ 0)
    (hlook : env.getVideoById m.chat_id m.id vid = .ok none)
    (hok : ∀ x, env.send x = .ok) :
    Event.logWarning ∈ (handle_max_message maxChatId env m chats file).2.2
    ∧ countDownloads (handle_max_message maxChatId env m chats file).2.2 = 0
    ∧ (handle_max_message maxChatId env m chats file).1 = chats
    ∧ (handle_max_message maxChatId env m chats file).2.1 = file
    ∧ (m.text.getD "" ≠ "" →
        (handle_max_message maxChatId env m chats file).2.2
          = (resolveSender env m.sender).2
            ++ [Event.videoLookup m.chat_id m.id vid, Event.logWarning]
            ++ chats.map (fun d => Event.send .text d
                (mkCaption (resolveSender env m.sender).1 (m.text.getD ""))))
    ∧ (m.text.getD "" = "" →
        ∀ x, hasSendTo (handle_max_message maxChatId env m chats file).2.2 x
          = false) := by
  have hattl : m.attaches.getD [] = Attach.video (some vid) :: rest := by
    rw [hatt]; rfl
  have hrm := resolveMedia_video_noUrl env m vid rest hatt hvid hlook
  have hne : ¬(m.text.getD "" = "" ∧ m.attaches.getD [] = []) := by
    simp [hattl]
  by_cases hch : chats = []
  · subst hch
    have hh : handle_max_message maxChatId env m [] file
        = ([], file, (resolveSender env m.sender).2
            ++ [Event.videoLookup m.chat_id m.id vid, Event.logWarning]) := by
      simp [handle_max_message, hs, hc, hne, hrm]
    rw [hh]
    refine ⟨by simp, ?_, rfl, rfl, ?_, ?_⟩
    · rw [countDownloads_append, resolveSender_no_download]
      simp [countDownloads]
    · intro ht
      simp
    · intro ht x
      rw [hasSendTo_append, resolveSender_no_send]
      simp [hasSendTo]
  · have hfan := fanOut_none_all_ok env
      (mkCaption (resolveSender env m.sender).1 (m.text.getD ""))
      (m.text.getD "") chats chats file (fun x _ => hok x)
    have hh : handle_max_message maxChatId env m chats file
        = ((fanOut env (mkCaption (resolveSender env m.sender).1 (m.text.getD ""))
              (m.text.getD "") none chats chats file).1,
           (fanOut env (mkCaption (resolveSender env m.sender).1 (m.text.getD ""))
              (m.text.getD "") none chats chats file).2.1,
           (resolveSender env m.sender).2
             ++ [Event.videoLookup m.chat_id m.id vid, Event.logWarning]
             ++ (fanOut env (mkCaption (resolveSender env m.sender).1 (m.text.getD ""))
                  (m.text.getD "") none chats chats file).2.2) := by
      simp [handle_max_message, hs, hc, hne, hch, hrm]
    rw [hh, hfan]
    refine ⟨by simp, ?_, rfl, rfl, ?_, ?_⟩
    · rw [countDownloads_append, countDownloads_append,
        resolveSender_no_download]
      split_ifs <;> simp [countDownloads_sendMap, countDownloads]
    · intro ht
      simp [ht]
    · intro ht x
      rw [if_pos ht, List.append_nil, hasSendTo_append, resolveSender_no_send]
      simp [hasSendTo]

/-- Witness for C7 on a video message whose URL lookup returns nothing:
with text, each of the two active destinations gets exactly the text-only
caption, a warning is logged, nothing is downloaded; without text, no
send at all happens. -/
theorem video_without_url_degrades_witness :
    Event.logWarning ∈ (handle_max_message 1 okEnv vidMsg ["1", "2"] []).2.2
    ∧ countDownloads (handle_max_message 1 okEnv vidMsg ["1", "2"] []).2.2 = 0
    ∧ (handle_max_message 1 okEnv vidMsg ["1", "2"] []).2.2
        = [Event.videoLookup 1 7 4, Event.logWarning,
           Event.send .text "1" "📩 *MAX*\n*От:* Неизвестный\nhi",
           Event.send .text "2" "📩 *MAX*\n*От:* Неизвестный\nhi"]
    ∧ (∀ x, hasSendTo (handle_max_message 1 okEnv vidMsgNoText ["1", "2"] []).2.2 x
        = false) := by
  have h := video_without_url_degrades 1 okEnv vidMsg ["1", "2"] [] 4 []
    (by decide) (by decide) rfl (by decide) rfl (fun x => rfl)
  have h2 := video_without_url_degrades 1 okEnv vidMsgNoText ["1", "2"] [] 4 []
    (by decide) (by decide) rfl (by decide) rfl (fun x => rfl)
  refine ⟨h.1, h.2.1, ?_, fun x => h2.2.2.2.2.2 (by decide) x⟩
  have h5 := h.2.2.2.2.1 (by decide)
  simpa using h5

end MaxToTg
